import Mathlib

/-!
Shallow embedding of the trailcam-classifier GUI front-end
(src/trailcam_classifier_app/gui.py) and proofs about its job-runner,
event-bridge, progress and instance-rendezvous behaviour.

Python integers are unbounded, so counters and totals are embedded as
Nat / Int with no wrap-around. Filesystem and platform queries
(os.path.abspath, Path.is_dir, Path.exists, PyInstaller bundling) are
supplied through an explicit environment record of functions, so the
embedded operations stay executable on concrete inputs.
-/

namespace Trailcam

/-- Kind-of-filesystem environment seen by the GUI code: models
os.path.abspath, PurePath.is_absolute, Path.is_dir, the PyInstaller
bundle flag (hasattr sys _MEIPASS), and the base directories used by
get_resource_path and get_output_directory. -/
structure Env where
  abspath : String → String
  is_absolute : String → Bool
  is_dir : String → Bool
  is_bundle : Bool
  app_bundle_container_dir : String
  home : String
  meipass : String
  cwd_absolute : String

/-- Modelled from Qt: a QProgressBar holds an integer minimum, maximum and
current value; the freshly constructed bar (gui.py line 231) has range
0..100 and value -1, meaning "no progress shown yet". -/
structure QProgressBar where
  minimum : Int
  maximum : Int
  value : Int
deriving Repr, DecidableEq

/-- Modelled from Qt: the default-constructed QProgressBar. -/
def QProgressBar.init : QProgressBar :=
  { minimum := 0, maximum := 100, value := -1 }

/-- Modelled from Qt: reset rewinds the bar so that no progress is shown;
internally the value becomes minimum - 1. -/
def QProgressBar.reset (b : QProgressBar) : QProgressBar :=
  { b with value := b.minimum - 1 }

/-- Modelled from Qt: attempting to change the current value to one outside
the minimum-maximum range has no effect. -/
def QProgressBar.setValue (b : QProgressBar) (v : Int) : QProgressBar :=
  if v < b.minimum ∨ b.maximum < v then b else { b with value := v }

/-- Modelled from Qt: setMaximum keeps the minimum, sets the maximum (a
maximum below the minimum is clamped up to it), and resets the bar when the
current value falls outside the new range. -/
def QProgressBar.setMaximum (b : QProgressBar) (m : Int) : QProgressBar :=
  let b1 : QProgressBar := { b with maximum := max b.minimum m }
  if b1.value < b1.minimum - 1 ∨ b1.maximum < b1.value then b1.reset else b1

/-- ClassificationConfig as constructed in MainWindow.start_classification
(gui.py lines 301-306). The Python float division by 100.0 is embedded as
exact rational division; none of the claims inspect the threshold. -/
structure ClassificationConfig where
  dirs : List String
  output : String
  model : String
  confidence_threshold : Rat
deriving Repr, DecidableEq

/-- The worker thread handle returned by run_coroutine_in_thread: a liveness
bit (threading.Thread.is_alive) plus the configuration its coroutine was
started with. -/
structure Worker where
  is_alive : Bool
  config : ClassificationConfig
deriving Repr, DecidableEq

/-- QSettings values read by the GUI; None models an unset key, and
settings.value(key, default) is embedded as Option.getD. -/
structure Settings where
  output_directory : Option String
  model_path : Option String
  confidence_threshold : Option Int
deriving Repr, DecidableEq

/-- gui.py line 34. -/
def DEFAULT_OUTPUT_DIRECTORY : String := "images_with_objects_detected"

/-- get_resource_path (gui.py lines 67-76): under a PyInstaller bundle the
base is the _MEIPASS temp folder, otherwise the absolute current directory;
path joining is embedded as slash concatenation. -/
def get_resource_path (env : Env) (relative_path : String) : String :=
  (if env.is_bundle then env.meipass else env.cwd_absolute) ++ "/" ++ relative_path

/-- An event posted across the thread boundary with
QMetaObject.invokeMethod(..., Qt.QueuedConnection, ...): either a queued
call of the log slot or of the log_progress slot (gui.py lines 45-55). -/
inductive QueuedEvent where
  | log (message : String)
  | progress (item_name : String) (total_count : Int)
deriving Repr, DecidableEq

/-- MainWindow state: the current-job slot (_classification_task), the
progress counter (_progress_counter), the log widget transcript as a list
of appended lines, the progress bar and the settings. -/
structure MainWindow where
  classification_task : Option Worker
  progress_counter : Nat
  log_lines : List String
  progress_bar : QProgressBar
  settings : Settings
deriving Repr, DecidableEq

/-- MainWindow.__init__ (gui.py lines 214-237): empty current-job slot,
counter 0, empty transcript, default progress bar. -/
def MainWindow.init (s : Settings) : MainWindow :=
  { classification_task := none
  , progress_counter := 0
  , log_lines := []
  , progress_bar := QProgressBar.init
  , settings := s }

/-- MainWindow.log (gui.py lines 251-253): QTextEdit.append adds one line
at the end of the transcript. -/
def MainWindow.log (w : MainWindow) (message : String) : MainWindow :=
  { w with log_lines := w.log_lines ++ [message] }

/-- MainWindow._on_progress_updated (gui.py lines 260-263): update the bar
maximum when it differs from the reported total, then set the bar value. -/
def MainWindow.on_progress_updated (w : MainWindow) (current_value total_count : Int) : MainWindow :=
  let w1 : MainWindow :=
    if w.progress_bar.maximum ≠ total_count then
      { w with progress_bar := w.progress_bar.setMaximum total_count }
    else w
  { w1 with progress_bar := w1.progress_bar.setValue current_value }

/-- MainWindow.log_progress (gui.py lines 255-258): increment the counter
and emit progress_updated, which is connected (same-thread, hence a direct
synchronous call) to _on_progress_updated. -/
def MainWindow.log_progress (w : MainWindow) (_item_name : String) (total_count : Int) : MainWindow :=
  let w1 : MainWindow := { w with progress_counter := w.progress_counter + 1 }
  w1.on_progress_updated (w1.progress_counter : Int) total_count

/-- MainWindow.get_output_directory (gui.py lines 265-282). -/
def MainWindow.get_output_directory (env : Env) (s : Settings) : String :=
  match s.output_directory with
  | some d =>
    if d = "" then
      if env.is_bundle then env.home ++ "/Desktop/" ++ DEFAULT_OUTPUT_DIRECTORY
      else DEFAULT_OUTPUT_DIRECTORY
    else if ¬ env.is_absolute d ∧ env.is_bundle then
      env.app_bundle_container_dir ++ "/" ++ d
    else d
  | none =>
    if env.is_bundle then env.home ++ "/Desktop/" ++ DEFAULT_OUTPUT_DIRECTORY
    else DEFAULT_OUTPUT_DIRECTORY

/-- The ClassificationConfig built by MainWindow.start_classification
(gui.py lines 295-306) from the settings and the absolute folder path. -/
def built_config (env : Env) (s : Settings) (abs_folder_path : String) : ClassificationConfig :=
  let output_directory := env.abspath (MainWindow.get_output_directory env s)
  let default_model_path := get_resource_path env "model/trailcam_classifier_model.pt"
  let model_path := s.model_path.getD default_model_path
  let confidence_threshold_int := s.confidence_threshold.getD 65
  { dirs := [abs_folder_path]
  , output := output_directory
  , model := model_path
  , confidence_threshold := (confidence_threshold_int : Rat) / 100 }

/-- run_coroutine_in_thread (gui.py lines 37-64) spawns and returns a new
worker thread, alive at return, driving the classification coroutine with
the given configuration; the behaviour of the thread body is thread_target
below. -/
def run_coroutine_in_thread (config : ClassificationConfig) : Worker :=
  { is_alive := true, config := config }

/-- The guard expression of start_classification (gui.py line 285):
self._classification_task and self._classification_task.is_alive(). -/
def MainWindow.isRunning (w : MainWindow) : Bool :=
  match w.classification_task with
  | some t => t.is_alive
  | none => false

/-- The rejection line logged at gui.py line 286. -/
def rejection_message : String := "A classification process is already running."

/-- MainWindow.start_classification (gui.py lines 284-312). Returns the new
window state and whether the job was accepted. On rejection only the log
line is appended; on acceptance the transcript is cleared, the starting
line logged, bar value and counter reset, and a fresh worker stored in the
current-job slot. -/
def MainWindow.start_classification (env : Env) (w : MainWindow) (folder_path : String) :
    MainWindow × Bool :=
  if w.isRunning then
    (w.log rejection_message, false)
  else
    let w1 : MainWindow := { w with log_lines := [] }
    let abs_folder_path := env.abspath folder_path
    let w2 := w1.log ("Starting classification for folder: " ++ abs_folder_path)
    let w3 : MainWindow := { w2 with progress_bar := w2.progress_bar.setValue 0 }
    let w4 : MainWindow := { w3 with progress_counter := 0 }
    let task := run_coroutine_in_thread (built_config env w.settings abs_folder_path)
    ({ w4 with classification_task := some task }, true)

/-- One URL of a Qt drop event, as used by DropLabel.dropEvent: whether
QUrl.isLocalFile holds and the QUrl.toLocalFile path. -/
structure QUrl where
  is_local_file : Bool
  local_file : String
deriving Repr, DecidableEq

/-- DropLabel.dropEvent (gui.py lines 195-207): only the first URL is
looked at; a local directory starts classification, a local non-directory
logs a fixed complaint, anything else is ignored. -/
def dropEvent (env : Env) (w : MainWindow) (urls : List QUrl) : MainWindow :=
  match urls with
  | [] => w
  | url :: _ =>
    if url.is_local_file then
      let folder_path := url.local_file
      if env.is_dir folder_path then
        (MainWindow.start_classification env w folder_path).1
      else
        w.log "Please drop a folder, not a file."
    else w

/-- One run of asyncio.run on the classification coroutine inside the
worker thread: the engine posts some queued events through the installed
thread-safe callbacks and then either completes or raises with a formatted
traceback. -/
inductive CoroutineRun where
  | completes (posts : List QueuedEvent)
  | raises (posts : List QueuedEvent) (tb : String)

/-- thread_target (gui.py lines 45-60): the events the worker posts to the
interactive thread over its whole life. Any exception from the coroutine is
caught and turned into a single additional queued log event carrying the
full traceback; the function always returns normally, so the thread ends
without crashing the process. -/
def thread_target : CoroutineRun → List QueuedEvent
  | .completes posts => posts
  | .raises posts tb => posts ++ [QueuedEvent.log ("An error occurred:\n" ++ tb)]

/-- The interactive-thread side of the bridge: the window together with the
queue of pending cross-thread slot invocations. Qt delivers a
Qt.QueuedConnection invocation by appending it to the event queue of the
thread owning the receiver, to be run on that thread on a later turn of its
event loop; the queue is embedded as an explicit FIFO list. -/
structure SystemState where
  window : MainWindow
  queue : List QueuedEvent

/-- Posting one event from the worker (QMetaObject.invokeMethod with
Qt.QueuedConnection, gui.py lines 47 and 50-52): the invocation is enqueued
and nothing runs on the window now. -/
def post_event (s : SystemState) (e : QueuedEvent) : SystemState :=
  { s with queue := s.queue ++ [e] }

/-- A sequence of posts from the worker, in the order it made them. -/
def post_all (s : SystemState) (es : List QueuedEvent) : SystemState :=
  es.foldl post_event s

/-- The interactive thread running one queued slot invocation. -/
def process_event (w : MainWindow) : QueuedEvent → MainWindow
  | .log m => w.log m
  | .progress item_name total_count => w.log_progress item_name total_count

/-- The interactive thread draining its queue front to back. -/
def deliver_all (s : SystemState) : MainWindow :=
  s.queue.foldl process_event s.window

/-- A job-long sequence of progress notifications as consumed by the
log_progress slot: each carries the item name and the reported total. -/
def apply_notifications (w : MainWindow) (notifications : List (String × Int)) : MainWindow :=
  notifications.foldl (fun acc n => acc.log_progress n.1 n.2) w

/-- Startup environment of run_gui: whether
QLocalSocket.waitForConnected(500) to the rendezvous endpoint succeeds,
the launch arguments sys.argv[1:], whether QLocalServer.listen on the
endpoint succeeds (its result is what the bind race decides), and the
Path.exists predicate used for startup arguments. -/
structure GuiEnv where
  connect_succeeds : Bool
  argv_tail : List String
  listen_succeeds : Bool
  path_exists : String → Bool

/-- Observable outcome of run_gui: how often and how long the connect path
was tried, the framed strings written to the rendezvous channel, the
bounded wait applied after flushing the write, whether the socket was
disconnected, whether a listen was attempted, whether a MainWindow was
created and the Qt event loop entered, and which startup arguments were
handed to start_classification. -/
structure GuiTrace where
  connect_attempts : Nat
  connect_wait_ms : Nat
  messages_written : List String
  write_flush_wait_ms : Option Nat
  disconnected_from_server : Bool
  listen_attempted : Bool
  window_created : Bool
  event_loop_started : Bool
  startup_paths : List String
deriving Repr, DecidableEq

/-- run_gui (gui.py lines 315-371). The secondary branch (connect within
500 ms succeeded) writes the first launch argument, if any, as one framed
string, flushes with a wait of at most 1000 ms, disconnects and returns
before any window or event loop exists. The primary branch calls
server.listen without inspecting its result, creates the window, starts
classification for every existing startup path and enters app.exec. -/
def run_gui (env : GuiEnv) : GuiTrace :=
  if env.connect_succeeds then
    { connect_attempts := 1
    , connect_wait_ms := 500
    , messages_written := env.argv_tail.take 1
    , write_flush_wait_ms := if env.argv_tail.isEmpty then none else some 1000
    , disconnected_from_server := true
    , listen_attempted := false
    , window_created := false
    , event_loop_started := false
    , startup_paths := [] }
  else
    { connect_attempts := 1
    , connect_wait_ms := 500
    , messages_written := []
    , write_flush_wait_ms := none
    , disconnected_from_server := false
    , listen_attempted := true
    , window_created := true
    , event_loop_started := true
    , startup_paths := env.argv_tail.filter env.path_exists }

/-! Helper lemmas on the progress bar and the progress fold. -/

lemma setValue_minimum (b : QProgressBar) (v : Int) :
    (b.setValue v).minimum = b.minimum := by
  unfold QProgressBar.setValue; split <;> rfl

lemma setValue_maximum (b : QProgressBar) (v : Int) :
    (b.setValue v).maximum = b.maximum := by
  unfold QProgressBar.setValue; split <;> rfl

lemma setMaximum_minimum (b : QProgressBar) (m : Int) :
    (b.setMaximum m).minimum = b.minimum := by
  simp only [QProgressBar.setMaximum, QProgressBar.reset]
  split <;> rfl

lemma setMaximum_maximum (b : QProgressBar) (m : Int) (h : b.minimum ≤ m) :
    (b.setMaximum m).maximum = m := by
  simp only [QProgressBar.setMaximum, QProgressBar.reset]
  split <;> simp [max_eq_right h]

lemma on_progress_updated_counter (w : MainWindow) (c t : Int) :
    (w.on_progress_updated c t).progress_counter = w.progress_counter := by
  unfold MainWindow.on_progress_updated
  split <;> rfl

lemma on_progress_updated_task (w : MainWindow) (c t : Int) :
    (w.on_progress_updated c t).classification_task = w.classification_task := by
  unfold MainWindow.on_progress_updated
  split <;> rfl

lemma on_progress_updated_minimum (w : MainWindow) (c t : Int) :
    (w.on_progress_updated c t).progress_bar.minimum = w.progress_bar.minimum := by
  unfold MainWindow.on_progress_updated
  split <;> simp [setValue_minimum, setMaximum_minimum]

lemma on_progress_updated_maximum (w : MainWindow) (c t : Int)
    (h : w.progress_bar.minimum ≤ t) :
    (w.on_progress_updated c t).progress_bar.maximum = t := by
  unfold MainWindow.on_progress_updated
  by_cases hne : w.progress_bar.maximum = t
  · rw [if_neg (not_not_intro hne)]
    simp only [setValue_maximum]
    exact hne
  · rw [if_pos hne]
    simp only [setValue_maximum]
    exact setMaximum_maximum _ _ h

lemma log_progress_counter (w : MainWindow) (i : String) (t : Int) :
    (w.log_progress i t).progress_counter = w.progress_counter + 1 := by
  unfold MainWindow.log_progress
  rw [on_progress_updated_counter]

lemma log_progress_minimum (w : MainWindow) (i : String) (t : Int) :
    (w.log_progress i t).progress_bar.minimum = w.progress_bar.minimum := by
  unfold MainWindow.log_progress
  rw [on_progress_updated_minimum]

lemma log_progress_maximum (w : MainWindow) (i : String) (t : Int)
    (h : w.progress_bar.minimum ≤ t) :
    (w.log_progress i t).progress_bar.maximum = t := by
  unfold MainWindow.log_progress
  exact on_progress_updated_maximum _ _ _ h

lemma apply_notifications_nil (w : MainWindow) : apply_notifications w [] = w := rfl

lemma apply_notifications_cons (w : MainWindow) (n : String × Int) (ns : List (String × Int)) :
    apply_notifications w (n :: ns) = apply_notifications (w.log_progress n.1 n.2) ns := rfl

lemma apply_notifications_append (w : MainWindow) (as bs : List (String × Int)) :
    apply_notifications w (as ++ bs) = apply_notifications (apply_notifications w as) bs := by
  unfold apply_notifications
  exact List.foldl_append _ _ _ _

lemma apply_notifications_counter (w : MainWindow) (ns : List (String × Int)) :
    (apply_notifications w ns).progress_counter = w.progress_counter + ns.length := by
  induction ns generalizing w with
  | nil => simp [apply_notifications_nil]
  | cons n ns ih =>
    rw [apply_notifications_cons, ih, log_progress_counter]
    simp only [List.length_cons]
    omega

lemma apply_notifications_minimum (w : MainWindow) (ns : List (String × Int)) :
    (apply_notifications w ns).progress_bar.minimum = w.progress_bar.minimum := by
  induction ns generalizing w with
  | nil => rfl
  | cons n ns ih =>
    rw [apply_notifications_cons, ih, log_progress_minimum]

/-! Helper lemmas on start_classification and the event queue. -/

lemma start_reject (env : Env) (w : MainWindow) (p : String) (h : w.isRunning = true) :
    MainWindow.start_classification env w p = (w.log rejection_message, false) := by
  unfold MainWindow.start_classification
  rw [if_pos h]

lemma start_accept (env : Env) (w : MainWindow) (p : String) (h : w.isRunning = false) :
    MainWindow.start_classification env w p =
      ({ w with
          log_lines := ["Starting classification for folder: " ++ env.abspath p]
        , progress_bar := w.progress_bar.setValue 0
        , progress_counter := 0
        , classification_task :=
            some (run_coroutine_in_thread (built_config env w.settings (env.abspath p))) }
      , true) := by
  unfold MainWindow.start_classification
  rw [h]
  rfl

lemma post_all_window (s : SystemState) (es : List QueuedEvent) :
    (post_all s es).window = s.window := by
  induction es generalizing s with
  | nil => rfl
  | cons e es ih => exact ih (post_event s e)

lemma post_all_queue (s : SystemState) (es : List QueuedEvent) :
    (post_all s es).queue = s.queue ++ es := by
  induction es generalizing s with
  | nil => simp [post_all]
  | cons e es ih =>
    have : post_all s (e :: es) = post_all (post_event s e) es := rfl
    rw [this, ih]
    simp [post_event]

/-! Concrete fixtures used by the witnesses and counterexamples. -/

/-- A concrete platform environment: identity abspath, every path absolute,
exactly the path "/photos" is a directory, not bundled. -/
def env0 : Env :=
  { abspath := fun p => p
  , is_absolute := fun _ => true
  , is_dir := fun p => p == "/photos"
  , is_bundle := false
  , app_bundle_container_dir := ""
  , home := "/home/user"
  , meipass := ""
  , cwd_absolute := "." }

/-- Concrete settings with every key unset. -/
def settings0 : Settings :=
  { output_directory := none, model_path := none, confidence_threshold := none }

/-- The configuration a job on "/photos" is built with under env0. -/
def config0 : ClassificationConfig := built_config env0 settings0 "/photos"

/-- A fresh window, as after MainWindow.__init__. -/
def fresh_window : MainWindow := MainWindow.init settings0

/-- A window whose current job slot holds a live worker. -/
def running_window : MainWindow :=
  { MainWindow.init settings0 with
    classification_task := some { is_alive := true, config := config0 }
  , log_lines := ["earlier line"] }

/-- The worker of a job that has already ended. -/
def finished_worker : Worker := { is_alive := false, config := config0 }

/-- A window after a finished job: dead worker in the slot, counter 7, one
transcript line, bar maximum left at the old job total 42. -/
def finished_window : MainWindow :=
  { MainWindow.init settings0 with
    classification_task := some finished_worker
  , progress_counter := 7
  , log_lines := ["job one line"]
  , progress_bar := { minimum := 0, maximum := 42, value := 7 } }

/-- A secondary-instance launch environment: the rendezvous connect
succeeds and two launch arguments were passed. -/
def gui_env_secondary : GuiEnv :=
  { connect_succeeds := true
  , argv_tail := ["/data/photos", "sub"]
  , listen_succeeds := false
  , path_exists := fun _ => false }

/-- A launch in which the connect failed and the bind was lost too. -/
def gui_env_bind_lost : GuiEnv :=
  { connect_succeeds := false
  , argv_tail := []
  , listen_succeeds := false
  , path_exists := fun _ => false }

/-- A first URL that is a local directory under env0. -/
def dir_url : QUrl := { is_local_file := true, local_file := "/photos" }

/-- A first URL that is a local file, not a directory, under env0. -/
def file_url : QUrl := { is_local_file := true, local_file := "/photos/img.jpg" }

/-! Claims. -/

/-- C1: a start_classification call made while the current worker is alive
is rejected: it returns accepted = false and leaves the window unchanged
except for the appended rejection log line, so it spawns no new worker and
at most one classification job is ever running. -/
theorem C1_at_most_one_running_job (env : Env) (w : MainWindow) (p : String)
    (h : w.isRunning = true) :
    MainWindow.start_classification env w p =
      ({ w with log_lines := w.log_lines ++ [rejection_message] }, false) := by
  rw [start_reject env w p h]
  rfl

/-- C1 witness at a window holding a live worker. -/
theorem C1_at_most_one_running_job_witness :
    MainWindow.start_classification env0 running_window "/photos" =
      ({ running_window with
          log_lines := running_window.log_lines ++ [rejection_message] }, false) :=
  C1_at_most_one_running_job env0 running_window "/photos" rfl

/-- C2: posting log and progress notifications from the worker through the
queued connection only appends them, in posting order, to the interactive
thread event queue and runs nothing on the window synchronously inside the
posting call; the interactive thread then drains the queue front to back,
so it observes the notifications in exactly the order they were posted. -/
theorem C2_queued_events_fifo (s : SystemState) (es : List QueuedEvent) :
    (post_all s es).window = s.window ∧
    (post_all s es).queue = s.queue ++ es ∧
    deliver_all (post_all s es) = (s.queue ++ es).foldl process_event s.window := by
  refine ⟨post_all_window s es, post_all_queue s es, ?_⟩
  unfold deliver_all
  rw [post_all_window, post_all_queue]

/-- C3: when the bounded 500 ms connection to the rendezvous endpoint
succeeds, the process acts as a secondary: it writes exactly one framed
string (its first launch argument) when arguments exist and none otherwise,
waits at most 1000 ms for the write to flush, disconnects, and returns
without creating a window or starting the UI event loop. -/
theorem C3_secondary_forwards_and_exits (env : GuiEnv)
    (h : env.connect_succeeds = true) :
    (run_gui env).messages_written = env.argv_tail.take 1 ∧
    (run_gui env).write_flush_wait_ms =
      (if env.argv_tail.isEmpty then none else some 1000) ∧
    (∀ ms, (run_gui env).write_flush_wait_ms = some ms → ms ≤ 1000) ∧
    (run_gui env).disconnected_from_server = true ∧
    (run_gui env).window_created = false ∧
    (run_gui env).event_loop_started = false := by
  have hg : run_gui env =
      { connect_attempts := 1
      , connect_wait_ms := 500
      , messages_written := env.argv_tail.take 1
      , write_flush_wait_ms := if env.argv_tail.isEmpty then none else some 1000
      , disconnected_from_server := true
      , listen_attempted := false
      , window_created := false
      , event_loop_started := false
      , startup_paths := [] } := by
    unfold run_gui
    rw [h]
    exact if_pos rfl
  rw [hg]
  refine ⟨rfl, rfl, ?_, rfl, rfl, rfl⟩
  intro ms hms
  by_cases he : env.argv_tail.isEmpty
  · rw [if_pos he] at hms
    cases hms
  · rw [if_neg he] at hms
    injection hms with hv
    omega

/-- C3 witness at a secondary launch with two arguments. -/
theorem C3_secondary_forwards_and_exits_witness :
    (run_gui gui_env_secondary).messages_written = gui_env_secondary.argv_tail.take 1 ∧
    (run_gui gui_env_secondary).write_flush_wait_ms =
      (if gui_env_secondary.argv_tail.isEmpty then none else some 1000) ∧
    (∀ ms, (run_gui gui_env_secondary).write_flush_wait_ms = some ms → ms ≤ 1000) ∧
    (run_gui gui_env_secondary).disconnected_from_server = true ∧
    (run_gui gui_env_secondary).window_created = false ∧
    (run_gui gui_env_secondary).event_loop_started = false :=
  C3_secondary_forwards_and_exits gui_env_secondary rfl

/-- C4 counterexample: with the connection failed and the bind lost as well,
run_gui tries the connect path exactly once in total — there is no second
connect attempt before the fallback, so the claimed retry does not happen. -/
theorem C4_counterexample_no_connect_retry :
    (run_gui gui_env_bind_lost).connect_attempts = 1 ∧
    (run_gui gui_env_bind_lost).connect_attempts ≠ 2 := by
  constructor <;> decide

/-- C4 (amended): after a failed connection the process does not retry the
connect path: whatever the outcome of the bind, it makes exactly one connect
attempt and proceeds directly as a standalone (non-singleton) primary with a
window and a running event loop; the bind outcome changes nothing in the
observable behaviour, so the rendezvous failure is never surfaced to the
user as an error and startup never hangs on it. -/
theorem C4_bind_loser_falls_back_without_retry (env : GuiEnv)
    (h : env.connect_succeeds = false) :
    (run_gui env).connect_attempts = 1 ∧
    (run_gui env).window_created = true ∧
    (run_gui env).event_loop_started = true ∧
    run_gui env = run_gui { env with listen_succeeds := true } ∧
    run_gui env = run_gui { env with listen_succeeds := false } := by
  unfold run_gui
  simp [h]

/-- C4 witness at the lost-bind launch environment. -/
theorem C4_bind_loser_falls_back_without_retry_witness :
    (run_gui gui_env_bind_lost).connect_attempts = 1 ∧
    (run_gui gui_env_bind_lost).window_created = true ∧
    (run_gui gui_env_bind_lost).event_loop_started = true ∧
    run_gui gui_env_bind_lost = run_gui { gui_env_bind_lost with listen_succeeds := true } ∧
    run_gui gui_env_bind_lost = run_gui { gui_env_bind_lost with listen_succeeds := false } :=
  C4_bind_loser_falls_back_without_retry gui_env_bind_lost rfl

/-- C5: a failure raised inside the engine during a job is caught by the
worker body, which posts exactly one additional queued log event carrying
the full formatted traceback and returns normally, so the process survives;
and once the worker is no longer alive, a later start_classification call
is accepted. -/
theorem C5_engine_failure_logged_once_then_accept
    (posts : List QueuedEvent) (tb : String) (env : Env) (w : MainWindow)
    (p : String) (t : Worker)
    (h1 : w.classification_task = some t) (h2 : t.is_alive = false) :
    thread_target (CoroutineRun.raises posts tb) =
      posts ++ [QueuedEvent.log ("An error occurred:\n" ++ tb)] ∧
    (MainWindow.start_classification env w p).2 = true := by
  have hrun : w.isRunning = false := by
    unfold MainWindow.isRunning
    rw [h1]
    exact h2
  exact ⟨rfl, by rw [start_accept env w p hrun]⟩

/-- C5 witness: a traceback posted after two engine events, then a start on
the window holding the dead worker. -/
theorem C5_engine_failure_logged_once_then_accept_witness :
    thread_target (CoroutineRun.raises [QueuedEvent.log "scanning"] "boom") =
      [QueuedEvent.log "scanning"] ++ [QueuedEvent.log ("An error occurred:\n" ++ "boom")] ∧
    (MainWindow.start_classification env0 finished_window "/photos").2 = true :=
  C5_engine_failure_logged_once_then_accept [QueuedEvent.log "scanning"] "boom"
    env0 finished_window "/photos" finished_worker rfl rfl

/-- C6: from the reset state (counter 0) at job start, delivering N progress
notifications leaves the counter exactly N, because every single
notification increments it by exactly one. -/
theorem C6_counter_counts_notifications (w : MainWindow)
    (ns : List (String × Int)) (h : w.progress_counter = 0) :
    (apply_notifications w ns).progress_counter = ns.length ∧
    (∀ (w1 : MainWindow) (i : String) (t : Int),
      (w1.log_progress i t).progress_counter = w1.progress_counter + 1) := by
  refine ⟨?_, fun w1 i t => log_progress_counter w1 i t⟩
  rw [apply_notifications_counter, h]
  omega

/-- C6 witness on a fresh window and two notifications. -/
theorem C6_counter_counts_notifications_witness :
    (apply_notifications fresh_window [("a.jpg", 3), ("b.jpg", 3)]).progress_counter =
      [(("a.jpg" : String), (3 : Int)), ("b.jpg", 3)].length ∧
    (∀ (w1 : MainWindow) (i : String) (t : Int),
      (w1.log_progress i t).progress_counter = w1.progress_counter + 1) :=
  C6_counter_counts_notifications fresh_window [("a.jpg", 3), ("b.jpg", 3)] rfl

/-- C7: within one job, after a sequence of notifications the display total
is the total supplied by the most recent one (the bar minimum is 0 as
constructed and engine totals are nonnegative), and the counter never
decreases across the job: its value after any prefix of the sequence is at
most its value after the whole sequence. -/
theorem C7_last_total_wins_counter_monotone (w : MainWindow)
    (early : List (String × Int)) (lastn : String × Int)
    (a b : List (String × Int))
    (hmin : w.progress_bar.minimum = 0) (hpos : 0 ≤ lastn.2)
    (hsplit : early ++ [lastn] = a ++ b) :
    (apply_notifications w (early ++ [lastn])).progress_bar.maximum = lastn.2 ∧
    (apply_notifications w a).progress_counter ≤
      (apply_notifications w (early ++ [lastn])).progress_counter := by
  constructor
  · rw [apply_notifications_append, apply_notifications_cons, apply_notifications_nil]
    apply log_progress_maximum
    rw [apply_notifications_minimum, hmin]
    exact hpos
  · rw [apply_notifications_counter, apply_notifications_counter]
    have hlen := congrArg List.length hsplit
    simp only [List.length_append, List.length_cons, List.length_nil] at hlen ⊢
    omega

/-- C7 witness: total 10 on the first notification, total 12 on the second
and last one; the prefix is the first notification alone. -/
theorem C7_last_total_wins_counter_monotone_witness :
    (apply_notifications fresh_window
        ([(("a.jpg" : String), (10 : Int))] ++ [("b.jpg", 12)])).progress_bar.maximum = 12 ∧
    (apply_notifications fresh_window [(("a.jpg" : String), (10 : Int))]).progress_counter ≤
      (apply_notifications fresh_window
        ([(("a.jpg" : String), (10 : Int))] ++ [("b.jpg", 12)])).progress_counter :=
  C7_last_total_wins_counter_monotone fresh_window
    [("a.jpg", 10)] ("b.jpg", 12) [("a.jpg", 10)] [("b.jpg", 12)]
    rfl (by decide) rfl

/-- C8 counterexample: an accepted start does not put the progress state
into an unknown-total condition: with the previous job having left the bar
maximum at 42, the accepted start keeps the maximum at 42, a determinate
total carried over from before (Qt shows an unknown total only when the
range is 0 to 0), refuting a reset of the total to unknown. -/
theorem C8_counterexample_total_not_reset :
    ((MainWindow.start_classification env0 finished_window "/photos").1).progress_bar.maximum = 42 ∧
    ¬ (((MainWindow.start_classification env0 finished_window "/photos").1).progress_bar.minimum = 0 ∧
       ((MainWindow.start_classification env0 finished_window "/photos").1).progress_bar.maximum = 0) := by
  constructor <;> decide

/-- C8 (amended): at the start of every accepted job, before the worker is
spawned and can emit, the progress counter and the displayed bar value are
reset exactly once to 0; the display total (the bar maximum) is not reset
to unknown and keeps the value it had before the call. -/
theorem C8_reset_on_accept (env : Env) (w : MainWindow) (p : String)
    (hrun : w.isRunning = false) (hmin : w.progress_bar.minimum = 0)
    (hmax : 0 ≤ w.progress_bar.maximum) :
    ((MainWindow.start_classification env w p).1).progress_counter = 0 ∧
    ((MainWindow.start_classification env w p).1).progress_bar.value = 0 ∧
    ((MainWindow.start_classification env w p).1).progress_bar.maximum =
      w.progress_bar.maximum ∧
    (MainWindow.start_classification env w p).2 = true := by
  rw [start_accept env w p hrun]
  refine ⟨rfl, ?_, setValue_maximum _ _, rfl⟩
  unfold QProgressBar.setValue
  rw [if_neg]
  omega

/-- C8 witness at the finished-job window. -/
theorem C8_reset_on_accept_witness :
    ((MainWindow.start_classification env0 finished_window "/photos").1).progress_counter = 0 ∧
    ((MainWindow.start_classification env0 finished_window "/photos").1).progress_bar.value = 0 ∧
    ((MainWindow.start_classification env0 finished_window "/photos").1).progress_bar.maximum =
      finished_window.progress_bar.maximum ∧
    (MainWindow.start_classification env0 finished_window "/photos").2 = true :=
  C8_reset_on_accept env0 finished_window "/photos" rfl rfl (by decide)

/-- C9: a drop event looks only at the first dropped URL: with no URLs
nothing happens, a first URL that is a local directory delegates to
start_classification on that path, and a first URL that is local but not a
directory starts no job and only appends the single complaint line to the
log. -/
theorem C9_drop_event_first_url (env : Env) (w : MainWindow) (urls : List QUrl) :
    (urls = [] → dropEvent env w urls = w) ∧
    (∀ u, urls.head? = some u → u.is_local_file = true →
      env.is_dir u.local_file = true →
      dropEvent env w urls = (MainWindow.start_classification env w u.local_file).1) ∧
    (∀ u, urls.head? = some u → u.is_local_file = true →
      env.is_dir u.local_file = false →
      dropEvent env w urls = w.log "Please drop a folder, not a file.") := by
  cases urls with
  | nil =>
    refine ⟨fun _ => rfl, ?_, ?_⟩
    · intro u hu
      cases hu
    · intro u hu
      cases hu
  | cons u rest =>
    refine ⟨?_, ?_, ?_⟩
    · intro h
      cases h
    · intro u1 hu h1 h2
      rw [List.head?_cons] at hu
      injection hu with hu1
      subst hu1
      simp [dropEvent, h1, h2]
    · intro u1 hu h1 h2
      rw [List.head?_cons] at hu
      injection hu with hu1
      subst hu1
      simp [dropEvent, h1, h2]

/-- C9 witness: the empty drop and a drop whose first URL is a local file,
with a directory in second position that is ignored. -/
theorem C9_drop_event_first_url_witness :
    dropEvent env0 fresh_window [] = fresh_window ∧
    dropEvent env0 fresh_window [file_url, dir_url] =
      fresh_window.log "Please drop a folder, not a file." :=
  ⟨(C9_drop_event_first_url env0 fresh_window []).1 rfl,
   (C9_drop_event_first_url env0 fresh_window [file_url, dir_url]).2.2
     file_url rfl rfl (by decide)⟩

/-- C10: an accepted start_classification call clears the transcript before
logging the starting line, so the new transcript is exactly that single
line and no line from a previous job survives; a rejected call keeps the
existing transcript intact in place, appending only the rejection line
after it. -/
theorem C10_transcript_cleared_on_accept (env : Env) (w : MainWindow) (p : String) :
    (w.isRunning = false →
      ((MainWindow.start_classification env w p).1).log_lines =
        ["Starting classification for folder: " ++ env.abspath p]) ∧
    (w.isRunning = true →
      ((MainWindow.start_classification env w p).1).log_lines =
        w.log_lines ++ [rejection_message]) := by
  constructor
  · intro h
    rw [start_accept env w p h]
  · intro h
    rw [start_reject env w p h]
    rfl

/-- C10 witness: an accepted start on a fresh window and a rejected one on
the window with a live worker. -/
theorem C10_transcript_cleared_on_accept_witness :
    ((MainWindow.start_classification env0 fresh_window "/photos").1).log_lines =
      ["Starting classification for folder: " ++ env0.abspath "/photos"] ∧
    ((MainWindow.start_classification env0 running_window "/photos").1).log_lines =
      running_window.log_lines ++ [rejection_message] :=
  ⟨(C10_transcript_cleared_on_accept env0 fresh_window "/photos").1 rfl,
   (C10_transcript_cleared_on_accept env0 running_window "/photos").2 rfl⟩

end Trailcam
